import Mathlib

/-!
Shallow embedding of the sso-demo relying-party services (Admin Portal and
CS Portal) and of the session/token lifecycle they rely on.

The route handlers, session configuration, store key layout and proxy logic
are translated from `src/admin-portal/app.js`, `src/cs-portal/app.js` and the
redis-backed CS portal application file.  The Authorization Gate itself
(`keycloak.protect` / `keycloak.middleware`) and the express-session record
lifecycle are library dependencies whose code is not part of this repository;
where a definition models such a dependency its doc comment says so.
-/

/-! ## Generic key-value store with string keys

Models the external session store (redis) as an association list: one binding
per key, `get`/`set`/`del` are the atomic per-key operations of spec section 5.
-/

def KV (α : Type) : Type := List (String × α)

def KV.get {α : Type} (s : KV α) (k : String) : Option α :=
  match s with
  | [] => none
  | (k2, v) :: rest => if k2 = k then some v else KV.get rest k

def KV.del {α : Type} (s : KV α) (k : String) : KV α :=
  match s with
  | [] => []
  | (k2, v) :: rest => if k2 = k then KV.del rest k else (k2, v) :: KV.del rest k

def KV.set {α : Type} (s : KV α) (k : String) (v : α) : KV α :=
  (k, v) :: KV.del s k

/-! ## Claims and tokens

An access token is a signed, time-bounded claim set (spec section 3).  The
claims consumed by the services are the subject, `preferred_username`,
`email` and the realm-level role set (`realm_access.roles` in the JWT).
-/

structure Claims where
  sub : String
  preferred_username : String
  email : String
  roles : List String
deriving Repr, DecidableEq

structure Token where
  content : Claims
  exp : Nat
  sigOk : Bool
  issOk : Bool
deriving Repr, DecidableEq

/-- Realm-role membership test; keycloak-connect reads
`token.content.realm_access.roles` and checks inclusion of the role name. -/
def Token.hasRealmRole (t : Token) (r : String) : Bool :=
  t.content.roles.contains r

inductive VerifyError where
  | expired
  | badSignature
  | wrongIssuer
deriving Repr, DecidableEq

/-- Modelled from the spec: `verify` of the Identity Provider Client (spec
section 4.2) lives in the keycloak-connect dependency, not under src/.  It
checks signature, issuer and expiry and never trusts unverified claims. -/
def verify (t : Token) (now : Nat) : Except VerifyError Claims :=
  if t.sigOk = false then Except.error VerifyError.badSignature
  else if t.issOk = false then Except.error VerifyError.wrongIssuer
  else if t.exp ≤ now then Except.error VerifyError.expired
  else Except.ok t.content

structure TokenSet where
  accessToken : Token
  refreshToken : Option Token
deriving Repr, DecidableEq

/-! ## Requests and the Authorization Gate -/

structure Request where
  bearer : Option Token
  sessionId : Option String
  isBrowser : Bool
deriving Repr, DecidableEq

inductive AuthResult where
  | allow (claims : Claims)
  | redirectLogin (url : String)
  | deny
  | unauthorized
deriving Repr, DecidableEq

/-- Unauthenticated outcome of the gate: a redirect to the provider's
authorization endpoint for interactive browser navigations, a plain 401 for
bearer/API callers (spec section 7). -/
def unauthenticatedResult (req : Request) (authUrl : String) : AuthResult :=
  if req.isBrowser then AuthResult.redirectLogin authUrl else AuthResult.unauthorized

/-- Modelled from the spec: the Authorization Gate (`keycloak.protect`
combined with `keycloak.middleware`) is provided by the keycloak-connect
dependency and its code is not under src/; this definition follows the
algorithm of spec section 4.3, steps 1-3 and 6: bearer header first (no
cookie needed), else session lookup, transparent refresh of an expired
access token when a refresh token exists, then evaluation of the role
predicate on the verified claims. -/
def authorize (refresh : Token → Option TokenSet) (authUrl : String)
    (store : KV TokenSet) (req : Request) (pred : Token → Bool) (now : Nat) :
    AuthResult × KV TokenSet :=
  match req.bearer with
  | some t =>
    match verify t now with
    | Except.ok c => (if pred t then AuthResult.allow c else AuthResult.deny, store)
    | Except.error _ => (AuthResult.unauthorized, store)
  | none =>
    match req.sessionId with
    | none => (unauthenticatedResult req authUrl, store)
    | some sid =>
      match KV.get store sid with
      | none => (unauthenticatedResult req authUrl, store)
      | some ts =>
        match verify ts.accessToken now with
        | Except.ok c =>
          (if pred ts.accessToken then AuthResult.allow c else AuthResult.deny, store)
        | Except.error VerifyError.expired =>
          match ts.refreshToken with
          | none => (unauthenticatedResult req authUrl, store)
          | some rt =>
            match refresh rt with
            | some ts2 =>
              (if pred ts2.accessToken then AuthResult.allow ts2.accessToken.content
               else AuthResult.deny,
               KV.set store sid ts2)
            | none => (unauthenticatedResult req authUrl, store)
        | Except.error _ => (unauthenticatedResult req authUrl, store)

/-! ## Role predicates of the source routes -/

/-- Guard given to `keycloak.protect` as a string: keycloak-connect resolves
a role spec of the form `realm:NAME` to a realm-role check.  Only
realm-qualified guard strings occur in this repository. -/
def roleSpecPredicate (spec : String) (t : Token) : Bool :=
  if spec.data.take 6 = "realm:".data
  then t.hasRealmRole (String.mk (spec.data.drop 6))
  else false

/-- Admin Portal guard `keycloak.protect ('realm:admin')`, used on
`/dashboard`, `/api/profits` and `/api/customers`
(src/admin-portal/app.js lines 74, 94, 111). -/
def realmAdminGuard : Token → Bool :=
  roleSpecPredicate "realm:admin"

/-- CS Portal `/dashboard` guard closure `(token, request) => token.hasRealmRole
('cs') || token.hasRealmRole ('admin')` (src/cs-portal/app.js lines 44-48);
it receives the request but never reads it. -/
def csDashboardGuard (t : Token) (_request : Request) : Bool :=
  t.hasRealmRole "cs" || t.hasRealmRole "admin"

/-- CS Portal `/api/customers` guard closure (redis-backed CS portal app,
lines 98-100). -/
def csApiCustomersGuard (t : Token) : Bool :=
  t.hasRealmRole "cs" || t.hasRealmRole "admin"

/-- CS Portal `/api/profits` proxy guard closure (redis-backed CS portal app,
lines 117-119). -/
def csApiProfitsGuard (t : Token) : Bool :=
  t.hasRealmRole "cs" || t.hasRealmRole "admin"

/-! ## Demo realm users (realm-export, also listed in the README table) -/

def adminClaims : Claims :=
  { sub := "admin-sub", preferred_username := "admin",
    email := "admin@example.com", roles := ["admin", "default-roles-demo"] }

def csClaims : Claims :=
  { sub := "csuser-sub", preferred_username := "csuser",
    email := "csuser@example.com", roles := ["cs", "default-roles-demo"] }

def adminToken : Token :=
  { content := adminClaims, exp := 100, sigOk := true, issOk := true }

def csToken : Token :=
  { content := csClaims, exp := 100, sigOk := true, issOk := true }

/-! ## JSON responses of the API routes -/

inductive JVal where
  | str (s : String)
  | num (n : Int)
  | bool (b : Bool)
  | arr (xs : List JVal)
  | obj (fields : List (String × JVal))

def JVal.field : JVal → String → Option JVal
  | JVal.obj fs, k => fs.lookup k
  | _, _ => none

def JVal.asStr : JVal → Option String
  | JVal.str s => some s
  | _ => none

/-- Error body `{ error, message }` as produced by the proxy catch branches. -/
def errBody (e m : String) : JVal :=
  JVal.obj [("error", JVal.str e), ("message", JVal.str m)]

/-- Admin Portal `/api/profits` handler body (src/admin-portal/app.js lines
94-108): a fixed three-row dataset plus `success` and `requestedBy` drawn
from the caller's verified claims. -/
def apiProfitsHandler (userInfo : Claims) : Nat × JVal :=
  let profits : List JVal :=
    [JVal.obj [("id", JVal.num 1), ("month", JVal.str "2026-01"),
               ("revenue", JVal.num 150000), ("expenses", JVal.num 85000),
               ("profit", JVal.num 65000)],
     JVal.obj [("id", JVal.num 2), ("month", JVal.str "2026-02"),
               ("revenue", JVal.num 175000), ("expenses", JVal.num 92000),
               ("profit", JVal.num 83000)],
     JVal.obj [("id", JVal.num 3), ("month", JVal.str "2026-03"),
               ("revenue", JVal.num 162000), ("expenses", JVal.num 88000),
               ("profit", JVal.num 74000)]]
  (200, JVal.obj [("success", JVal.bool true),
                  ("requestedBy", JVal.str userInfo.preferred_username),
                  ("data", JVal.arr profits)])

/-- CS Portal `/api/customers` handler body (redis-backed CS portal app,
lines 98-114). -/
def apiCustomersHandler (userInfo : Claims) : Nat × JVal :=
  let customers : List JVal :=
    [JVal.obj [("id", JVal.num 1), ("name", JVal.str "Alice Chen"),
               ("email", JVal.str "alice@example.com"), ("status", JVal.str "active")],
     JVal.obj [("id", JVal.num 2), ("name", JVal.str "Bob Wang"),
               ("email", JVal.str "bob@example.com"), ("status", JVal.str "active")],
     JVal.obj [("id", JVal.num 3), ("name", JVal.str "Carol Liu"),
               ("email", JVal.str "carol@example.com"), ("status", JVal.str "pending")]]
  (200, JVal.obj [("success", JVal.bool true),
                  ("requestedBy", JVal.str userInfo.preferred_username),
                  ("data", JVal.arr customers)])

/-! ## Cross-service proxy routes

The outcome of the outbound `fetch` to the sibling service: a network error
(the `catch` branch), or a response with a status code and a body that either
parses as JSON or makes `response.json()` throw. -/

inductive Upstream where
  | netErr (msg : String)
  | resp (status : Nat) (body : Except String JVal)

/-- The `ok` flag of a fetch response: status in [200, 300). -/
def fetchRespOk (status : Nat) : Bool :=
  decide (200 ≤ status) && decide (status < 300)

/-- Fixed denial message written by the CS Portal profits proxy in place of
the upstream body (redis-backed CS portal app, line 129). -/
def csProfitsDenialMessage : String :=
  "You do not have permission to access profits data (requires admin role)"

/-- Admin Portal `/api/customers` proxy handler (src/admin-portal/app.js
lines 111-122): parses the upstream JSON body and returns it with
`res.json(data)` without consulting `response.status`; any thrown error
(network failure or non-JSON body) lands in the catch branch, a 500. -/
def adminCustomersProxy : Upstream → Nat × JVal
  | Upstream.netErr m => (500, errBody "Failed to fetch customers" m)
  | Upstream.resp _ (Except.error m) => (500, errBody "Failed to fetch customers" m)
  | Upstream.resp _ (Except.ok j) => (200, j)

/-- CS Portal `/api/profits` proxy handler (redis-backed CS portal app, lines
117-138): on a non-ok upstream status it propagates that status with a fixed
local `Access Denied` body; otherwise it forwards the parsed JSON with 200;
thrown errors land in the catch branch, a 500. -/
def csProfitsProxy : Upstream → Nat × JVal
  | Upstream.netErr m => (500, errBody "Failed to fetch profits" m)
  | Upstream.resp st body =>
    if fetchRespOk st = false then
      (st, errBody "Access Denied" csProfitsDenialMessage)
    else
      match body with
      | Except.ok j => (200, j)
      | Except.error m => (500, errBody "Failed to fetch profits" m)

/-! ## Store namespaces and the logout route -/

/-- Admin Portal redis namespace (src/admin-portal/app.js line 25). -/
def adminPortalNS : String := "admin-portal:sess:"

/-- CS Portal redis namespace (redis-backed CS portal app, line 25). -/
def csPortalNS : String := "cs-portal:sess:"

def adminKey (sid : String) : String := adminPortalNS ++ sid

def csKey (sid : String) : String := csPortalNS ++ sid

def hexDigit (n : Nat) : Char :=
  if n < 10 then Char.ofNat (48 + n) else Char.ofNat (55 + n)

def isUnreservedChar (c : Char) : Bool :=
  c.isAlphanum || c = '-' || c = '_' || c = '.' || c = '!' ||
    c = '~' || c = '*' || c = Char.ofNat 39 || c = '(' || c = ')'

/-- Percent-encoding of a single character (the source URLs are ASCII). -/
def encodeUriChar (c : Char) : List Char :=
  if isUnreservedChar c then [c]
  else [Char.ofNat 37, hexDigit (c.toNat / 16 % 16), hexDigit (c.toNat % 16)]

def encodeURIComponent (s : String) : String :=
  String.mk (s.data.foldr (fun c acc => encodeUriChar c ++ acc) [])

/-- Provider end-session URL built by the logout routes
(src/admin-portal/app.js line 127 and the redis-backed CS portal app,
line 144). -/
def endSessionUrl (kcUrl portalUrl : String) : String :=
  kcUrl ++ "/realms/demo/protocol/openid-connect/logout?redirect_uri=" ++
    encodeURIComponent (portalUrl ++ "/")

structure LogoutResponse where
  status : Nat
  location : String
  cookieCleared : Bool
deriving Repr, DecidableEq

/-- The `/auth/logout` route (src/admin-portal/app.js lines 126-150 and the
redis-backed CS portal app, lines 142-167): destroy the session, explicitly
delete the namespaced redis key, clear the cookie and redirect to the
provider's end-session URL.  A failing destroy or delete is only logged
(`console.error`) and leaves the corresponding store write undone; the
response is the same 302 redirect in every case. -/
def authLogout {α : Type} (ns kcUrl portalUrl : String) (store : KV α)
    (sid : String) (destroyFails delFails : Bool) : KV α × LogoutResponse :=
  let key := ns ++ sid
  let s1 := if destroyFails then store else KV.del store key
  let s2 := if delFails then s1 else KV.del s1 key
  (s2, { status := 302, location := endSessionUrl kcUrl portalUrl,
         cookieCleared := true })

/-! ## Session record creation rule of the session middleware

Models the documented express-session behaviour as configured by each app:
with `saveUninitialized` true a brand-new, unmodified session is still
written to the store at the end of the request; with it false a record is
only written once the session is modified (here: by a successful code
exchange storing the grant). -/

structure SessionConfig where
  saveUninit : Bool
  resave : Bool
deriving Repr, DecidableEq

/-- Redis-backed Admin Portal session options (src/admin-portal/app.js lines
31-42): `saveUninitialized: false`. -/
def adminRedisSessionConfig : SessionConfig := { saveUninit := false, resave := false }

/-- Redis-backed CS Portal session options (redis-backed CS portal app,
lines 31-42): `saveUninitialized: false`. -/
def csRedisSessionConfig : SessionConfig := { saveUninit := false, resave := false }

/-- Memory-store CS Portal session options (src/cs-portal/app.js lines
11-16): `saveUninitialized: true`. -/
def csPortalSessionConfig : SessionConfig := { saveUninit := true, resave := false }

/-- Memory-store legacy Admin Portal session options (legacy app in
src/admin-portal, lines 165-170): `saveUninitialized: true`. -/
def adminLegacySessionConfig : SessionConfig := { saveUninit := true, resave := false }

/-- Per-browser, per-service session lifecycle: whether a store record
exists, and whether a successful code exchange is still live (completed,
not logged out, record not expired). -/
structure BrowserSession where
  recordExists : Bool
  liveExchange : Bool
deriving Repr, DecidableEq

inductive SessionEvent where
  | publicRequest
  | codeExchange
  | logout
  | expire
deriving Repr, DecidableEq

def sessionStep (cfg : SessionConfig) (s : BrowserSession) : SessionEvent → BrowserSession
  | SessionEvent.publicRequest => { s with recordExists := s.recordExists || cfg.saveUninit }
  | SessionEvent.codeExchange => { recordExists := true, liveExchange := true }
  | SessionEvent.logout => { recordExists := false, liveExchange := false }
  | SessionEvent.expire => { recordExists := false, liveExchange := false }

def initialBrowserSession : BrowserSession :=
  { recordExists := false, liveExchange := false }

def runSession (cfg : SessionConfig) (evts : List SessionEvent) : BrowserSession :=
  evts.foldl (sessionStep cfg) initialBrowserSession

/-! ## Pending authorization state and the provider callback -/

structure PendingAuth where
  state : String
  target : String
deriving Repr, DecidableEq

/-- Provider authorization URL with response type code and the embedded
`state` (spec section 4.2 / 6). -/
def buildAuthorizationUrl (authEndpoint clientId redirectUri st : String) : String :=
  authEndpoint ++ "?client_id=" ++ clientId ++ "&redirect_uri=" ++
    encodeURIComponent redirectUri ++ "&response_type=code&state=" ++ st

/-- Issue the login redirect and record the pending authorization state for
exactly one flow. -/
def beginAuthFlow (authEndpoint clientId redirectUri st target : String) :
    String × PendingAuth :=
  (buildAuthorizationUrl authEndpoint clientId redirectUri st, ⟨st, target⟩)

inductive CallbackDecision where
  | accepted (ts : TokenSet) (redirectTo : String)
  | rejected
deriving Repr, DecidableEq

/-- Modelled from the spec: the provider-callback handling of
`keycloak.middleware` is a library dependency not under src/; per spec
sections 3 (Pending Authorization State) and 4.3 step 5, the presented
`state` is compared for equality with the pending one, a mismatch is
rejected before any code exchange, and the pending state is discarded after
the one validation, never persisted beyond the flow. -/
def handleCallback (exchange : String → Option TokenSet) (p : PendingAuth)
    (cbState cbCode : String) : CallbackDecision × Option PendingAuth :=
  if cbState = p.state then
    match exchange cbCode with
    | some ts => (CallbackDecision.accepted ts p.target, none)
    | none => (CallbackDecision.rejected, none)
  else (CallbackDecision.rejected, none)

/-! ## Store lemmas -/

theorem KV.get_del_self {α : Type} (s : KV α) (k : String) :
    KV.get (KV.del s k) k = none := by
  induction s with
  | nil => rfl
  | cons p rest ih =>
    obtain ⟨k2, v⟩ := p
    by_cases h : k2 = k
    · simp [KV.del, h, ih]
    · simp [KV.del, KV.get, h, ih]

theorem KV.del_idem {α : Type} (s : KV α) (k : String) :
    KV.del (KV.del s k) k = KV.del s k := by
  induction s with
  | nil => rfl
  | cons p rest ih =>
    obtain ⟨k2, v⟩ := p
    by_cases h : k2 = k
    · simp [KV.del, h, ih]
    · simp [KV.del, h, ih]

theorem KV.get_del_ne {α : Type} (s : KV α) (k j : String) (h : j ≠ k) :
    KV.get (KV.del s k) j = KV.get s j := by
  induction s with
  | nil => rfl
  | cons p rest ih =>
    obtain ⟨k2, v⟩ := p
    by_cases h2 : k2 = k
    · subst h2
      simp [KV.del, KV.get, Ne.symm h, ih]
    · by_cases h4 : k2 = j
      · subst h4
        simp [KV.del, KV.get, h2, ih]
      · simp [KV.del, KV.get, h2, h4, ih]

theorem KV.get_set_self {α : Type} (s : KV α) (k : String) (v : α) :
    KV.get (KV.set s k v) k = some v := by
  simp [KV.set, KV.get]

theorem string_data_append (s t : String) : (s ++ t).data = s.data ++ t.data := by
  cases s
  cases t
  rfl

theorem adminKey_ne_csKey (x y : String) : adminKey x ≠ csKey y := by
  intro h
  have h2 : (adminKey x).data = (csKey y).data := congrArg String.data h
  simp [adminKey, csKey, adminPortalNS, csPortalNS, string_data_append] at h2

/-! ## Claim theorems -/

/-- C5: the two services' store keys never collide: for every raw session
identifier the admin-portal namespaced key differs from every cs-portal
namespaced key, and deleting through one service's namespace leaves the
other service's record (with the identical raw identifier) unchanged. -/
theorem C5_session_namespace_isolation {α : Type} (x : String) (store : KV α) :
    (∀ y : String, adminKey x ≠ csKey y)
    ∧ KV.get (KV.del store (csKey x)) (adminKey x) = KV.get store (adminKey x)
    ∧ KV.get (KV.del store (adminKey x)) (csKey x) = KV.get store (csKey x) := by
  refine ⟨fun y => adminKey_ne_csKey x y, ?_, ?_⟩
  · exact KV.get_del_ne store (csKey x) (adminKey x) (adminKey_ne_csKey x x)
  · exact KV.get_del_ne store (adminKey x) (csKey x) (Ne.symm (adminKey_ne_csKey x x))

/-- C4: the `/auth/logout` route is idempotent: after one invocation no
record for the identifier remains under the service's namespace, a second
invocation with the now-stale identifier leaves the store untouched and
produces the same non-error redirect response, and invoking it on a store
that has no record for the identifier is not an error. -/
theorem C4_logout_idempotent {α : Type} (ns kc portal sid : String) (store : KV α) :
    KV.get (authLogout ns kc portal store sid false false).1 (ns ++ sid) = none
    ∧ authLogout ns kc portal (authLogout ns kc portal store sid false false).1 sid false false
        = authLogout ns kc portal store sid false false
    ∧ (authLogout ns kc portal (authLogout ns kc portal store sid false false).1 sid false false).2.status
        = 302
    ∧ (∀ s2 : KV α, KV.get s2 (ns ++ sid) = none →
        (authLogout ns kc portal s2 sid false false).2
          = (authLogout ns kc portal store sid false false).2) := by
  refine ⟨?_, ?_, rfl, fun s2 _ => rfl⟩
  · simp [authLogout, KV.get_del_self]
  · simp [authLogout, KV.del_idem]

/-- C4 witness: concrete double logout on a one-record store, and logout on
an empty store, both yield the normal redirect. -/
theorem C4_witness :
    KV.get (authLogout adminPortalNS "http://kc" "http://a" [(adminKey "S1", (0 : Nat))]
        "S1" false false).1 (adminPortalNS ++ "S1") = none
    ∧ (authLogout adminPortalNS "http://kc" "http://a" ([] : KV Nat) "S1" false false).2
        = (authLogout adminPortalNS "http://kc" "http://a" [(adminKey "S1", (0 : Nat))]
            "S1" false false).2 := by
  refine ⟨(C4_logout_idempotent adminPortalNS "http://kc" "http://a" "S1"
      [(adminKey "S1", (0 : Nat))]).1, ?_⟩
  exact (C4_logout_idempotent adminPortalNS "http://kc" "http://a" "S1"
      [(adminKey "S1", (0 : Nat))]).2.2.2 [] rfl

/-- C9: every request to `/auth/logout` is answered with the redirect to the
provider's end-session URL and a cleared session cookie, even when session
destruction or the explicit store delete fails; no error status is ever
returned. -/
theorem C9_logout_always_redirects {α : Type} (ns kc portal sid : String)
    (store : KV α) (destroyFails delFails : Bool) :
    (authLogout ns kc portal store sid destroyFails delFails).2
      = { status := 302, location := endSessionUrl kc portal, cookieCleared := true }
    ∧ (authLogout ns kc portal store sid destroyFails delFails).2.status < 400 := by
  refine ⟨rfl, ?_⟩
  show (302 : Nat) < 400
  decide

/-- C10: the `/api/profits` response is deterministic in the caller's
claims: status 200, `success` true, `requestedBy` equal to the token's
`preferred_username`, and a fixed three-element dataset identical across
all callers. -/
theorem C10_profits_deterministic (c c2 : Claims) :
    (apiProfitsHandler c).1 = 200
    ∧ JVal.field (apiProfitsHandler c).2 "success" = some (JVal.bool true)
    ∧ JVal.field (apiProfitsHandler c).2 "requestedBy"
        = some (JVal.str c.preferred_username)
    ∧ JVal.field (apiProfitsHandler c).2 "data" = JVal.field (apiProfitsHandler c2).2 "data"
    ∧ ∃ rows : List JVal, JVal.field (apiProfitsHandler c).2 "data" = some (JVal.arr rows)
        ∧ rows.length = 3 := by
  exact ⟨rfl, rfl, rfl, rfl, ⟨_, rfl, rfl⟩⟩

/-- C2 counterexample: with the sibling service denying 403, the Admin
Portal customers proxy answers 200 with the forwarded body instead of
carrying the 403, and the CS Portal profits proxy substitutes its own fixed
message for the sibling's reason. -/
theorem C2_counterexample :
    (adminCustomersProxy (Upstream.resp 403
        (Except.ok (errBody "Access denied" "missing admin role")))).1 = 200
    ∧ (200 : Nat) ≠ 403
    ∧ Option.bind (JVal.field (csProfitsProxy (Upstream.resp 403
        (Except.ok (errBody "Access denied" "missing admin role")))).2 "message") JVal.asStr
        = some csProfitsDenialMessage
    ∧ csProfitsDenialMessage ≠ "missing admin role" := by
  refine ⟨rfl, by decide, rfl, by decide⟩

/-- C2 amended: on an upstream denial the CS Portal profits proxy
propagates the upstream status but replaces the body with a fixed local
`Access Denied` message (no upstream data leaks); the Admin Portal
customers proxy ignores the upstream status entirely, forwarding a parsed
body with 200 and turning a parse failure or network error into a local
500. -/
theorem C2_amended_proxy_denial (st : Nat) (m : String) (j : JVal)
    (body : Except String JVal) (hst : fetchRespOk st = false) :
    csProfitsProxy (Upstream.resp st body)
      = (st, errBody "Access Denied" csProfitsDenialMessage)
    ∧ adminCustomersProxy (Upstream.resp st (Except.ok j)) = (200, j)
    ∧ adminCustomersProxy (Upstream.resp st (Except.error m))
        = (500, errBody "Failed to fetch customers" m)
    ∧ csProfitsProxy (Upstream.netErr m) = (500, errBody "Failed to fetch profits" m) := by
  refine ⟨?_, rfl, rfl, rfl⟩
  simp [csProfitsProxy, hst]

/-- C2 witness: concrete upstream 403. -/
theorem C2_witness :
    csProfitsProxy (Upstream.resp 403 (Except.ok (JVal.bool true)))
      = (403, errBody "Access Denied" csProfitsDenialMessage)
    ∧ adminCustomersProxy (Upstream.resp 403 (Except.ok (JVal.bool true)))
      = (200, JVal.bool true) := by
  exact ⟨(C2_amended_proxy_denial 403 "x" (JVal.bool true)
            (Except.ok (JVal.bool true)) rfl).1,
         (C2_amended_proxy_denial 403 "x" (JVal.bool true)
            (Except.ok (JVal.bool true)) rfl).2.1⟩

/-- C8 counterexample: under the memory-store CS Portal configuration
(`saveUninitialized: true`) a browser that has made one plain request and
completed no code exchange already has a store record, contradicting the
claimed equivalence. -/
theorem C8_counterexample :
    (runSession csPortalSessionConfig [SessionEvent.publicRequest]).recordExists = true
    ∧ (runSession csPortalSessionConfig [SessionEvent.publicRequest]).liveExchange = false := by
  exact ⟨rfl, rfl⟩

theorem sessionStep_preserves_inv (cfg : SessionConfig) (hcfg : cfg.saveUninit = false)
    (s : BrowserSession) (h : s.recordExists = s.liveExchange) (e : SessionEvent) :
    (sessionStep cfg s e).recordExists = (sessionStep cfg s e).liveExchange := by
  cases e <;> simp [sessionStep, hcfg, h]

theorem foldl_sessionStep_inv (cfg : SessionConfig) (hcfg : cfg.saveUninit = false)
    (evts : List SessionEvent) :
    ∀ s : BrowserSession, s.recordExists = s.liveExchange →
      (evts.foldl (sessionStep cfg) s).recordExists
        = (evts.foldl (sessionStep cfg) s).liveExchange := by
  induction evts with
  | nil =>
    intro s hs
    simpa using hs
  | cons e rest ih =>
    intro s hs
    simp only [List.foldl_cons]
    exact ih _ (sessionStep_preserves_inv cfg hcfg s hs e)

/-- C8 amended: for the redis-backed services, which set
`saveUninitialized: false`, a Session Record exists after any event history
exactly when a successful code exchange is live within it (completed, not
followed by logout, record not expired); the memory-store configurations
with `saveUninitialized: true` violate the only-if direction by saving a
record on the browser's first request. -/
theorem C8_amended_record_iff_live_exchange (cfg : SessionConfig)
    (hcfg : cfg.saveUninit = false) (evts : List SessionEvent) :
    (runSession cfg evts).recordExists = (runSession cfg evts).liveExchange
    ∧ adminRedisSessionConfig.saveUninit = false
    ∧ csRedisSessionConfig.saveUninit = false := by
  exact ⟨foldl_sessionStep_inv cfg hcfg evts initialBrowserSession rfl, rfl, rfl⟩

/-- C8 witness: the redis-backed Admin Portal configuration over a concrete
history of one public request, an exchange and a logout. -/
theorem C8_witness :
    (runSession adminRedisSessionConfig
        [SessionEvent.publicRequest, SessionEvent.codeExchange, SessionEvent.logout]).recordExists
      = (runSession adminRedisSessionConfig
        [SessionEvent.publicRequest, SessionEvent.codeExchange, SessionEvent.logout]).liveExchange := by
  exact (C8_amended_record_iff_live_exchange adminRedisSessionConfig rfl
      [SessionEvent.publicRequest, SessionEvent.codeExchange, SessionEvent.logout]).1

/-- C1: for a verified token, the gate's decision is Allow exactly when the
role predicate holds of the token's role set, the decision is identical for
the bearer-header and session-cookie paths, and the source guard closures
read nothing of the request besides the token's role set. -/
theorem C1_path_equivalence (P : List String → Bool) (t : Token) (rt : Option Token)
    (now : Nat) (sid authUrl : String) (store : KV TokenSet)
    (refresh : Token → Option TokenSet) (b : Bool)
    (hver : verify t now = Except.ok t.content)
    (hstore : KV.get store sid = some { accessToken := t, refreshToken := rt }) :
    ((authorize refresh authUrl store
        { bearer := some t, sessionId := none, isBrowser := false }
        (fun tok => P tok.content.roles) now).1
      = if P t.content.roles then AuthResult.allow t.content else AuthResult.deny)
    ∧ ((authorize refresh authUrl store
        { bearer := none, sessionId := some sid, isBrowser := b }
        (fun tok => P tok.content.roles) now).1
      = (authorize refresh authUrl store
        { bearer := some t, sessionId := none, isBrowser := false }
        (fun tok => P tok.content.roles) now).1)
    ∧ ((authorize refresh authUrl store
        { bearer := some t, sessionId := none, isBrowser := false }
        (fun tok => P tok.content.roles) now).1 = AuthResult.allow t.content
        ↔ P t.content.roles = true)
    ∧ (∀ (t2 : Token) (r1 r2 : Request), csDashboardGuard t2 r1 = csDashboardGuard t2 r2)
    ∧ (∀ (t1 t2 : Token) (r : Request), t1.content.roles = t2.content.roles →
        csDashboardGuard t1 r = csDashboardGuard t2 r) := by
  have hb : (authorize refresh authUrl store
      { bearer := some t, sessionId := none, isBrowser := false }
      (fun tok => P tok.content.roles) now).1
      = if P t.content.roles then AuthResult.allow t.content else AuthResult.deny := by
    simp only [authorize, hver]
  have hc : (authorize refresh authUrl store
      { bearer := none, sessionId := some sid, isBrowser := b }
      (fun tok => P tok.content.roles) now).1
      = if P t.content.roles then AuthResult.allow t.content else AuthResult.deny := by
    simp only [authorize, hstore, hver]
  refine ⟨hb, by rw [hc, hb], ?_, fun t2 r1 r2 => rfl, ?_⟩
  · rw [hb]
    cases hP : P t.content.roles <;> simp [hP]
  · intro t1 t2 r h
    simp [csDashboardGuard, Token.hasRealmRole, h]

/-- C1 witness: the cs-or-admin role predicate evaluated on the csuser token
via both credential paths. -/
theorem C1_witness :
    ((authorize (fun _ => none) "http://kc/auth"
        [("S1", { accessToken := csToken, refreshToken := none })]
        { bearer := some csToken, sessionId := none, isBrowser := false }
        (fun tok => (fun roles => roles.contains "cs" || roles.contains "admin")
            tok.content.roles) 0).1
      = if (fun roles => roles.contains "cs" || roles.contains "admin") csToken.content.roles
        then AuthResult.allow csToken.content else AuthResult.deny)
    ∧ ((authorize (fun _ => none) "http://kc/auth"
        [("S1", { accessToken := csToken, refreshToken := none })]
        { bearer := none, sessionId := some "S1", isBrowser := true }
        (fun tok => (fun roles => roles.contains "cs" || roles.contains "admin")
            tok.content.roles) 0).1
      = (authorize (fun _ => none) "http://kc/auth"
        [("S1", { accessToken := csToken, refreshToken := none })]
        { bearer := some csToken, sessionId := none, isBrowser := false }
        (fun tok => (fun roles => roles.contains "cs" || roles.contains "admin")
            tok.content.roles) 0).1) := by
  exact ⟨(C1_path_equivalence (fun roles => roles.contains "cs" || roles.contains "admin")
      csToken none 0 "S1" "http://kc/auth"
      [("S1", { accessToken := csToken, refreshToken := none })]
      (fun _ => none) true rfl rfl).1,
    (C1_path_equivalence (fun roles => roles.contains "cs" || roles.contains "admin")
      csToken none 0 "S1" "http://kc/auth"
      [("S1", { accessToken := csToken, refreshToken := none })]
      (fun _ => none) true rfl rfl).2.1⟩

/-- C3: an authenticated caller whose token fails the route's role
predicate is answered Deny (403) on both credential paths; Deny is a
distinct outcome from any login redirect and from the unauthenticated
outcome, so no redirect loop is possible. -/
theorem C3_forbidden_is_deny_not_redirect (pred : Token → Bool) (t : Token)
    (rt : Option Token) (now : Nat) (sid authUrl : String) (store : KV TokenSet)
    (refresh : Token → Option TokenSet) (b : Bool)
    (hver : verify t now = Except.ok t.content) (hpred : pred t = false)
    (hstore : KV.get store sid = some { accessToken := t, refreshToken := rt }) :
    (authorize refresh authUrl store
        { bearer := some t, sessionId := none, isBrowser := b } pred now).1
      = AuthResult.deny
    ∧ (authorize refresh authUrl store
        { bearer := none, sessionId := some sid, isBrowser := b } pred now).1
      = AuthResult.deny
    ∧ (∀ url, (AuthResult.deny : AuthResult) ≠ AuthResult.redirectLogin url)
    ∧ (AuthResult.deny : AuthResult) ≠ AuthResult.unauthorized := by
  refine ⟨?_, ?_, ?_, by simp⟩
  · simp only [authorize, hver, hpred]
    simp
  · simp only [authorize, hstore, hver, hpred]
    simp
  · intro url
    simp

/-- C3 witness: the csuser token (role set lacking admin) against the Admin
Portal realm-admin guard, on both credential paths. -/
theorem C3_witness :
    realmAdminGuard csToken = false
    ∧ (authorize (fun _ => none) "http://kc/auth"
        [("S1", { accessToken := csToken, refreshToken := none })]
        { bearer := some csToken, sessionId := none, isBrowser := true }
        realmAdminGuard 0).1 = AuthResult.deny
    ∧ (authorize (fun _ => none) "http://kc/auth"
        [("S1", { accessToken := csToken, refreshToken := none })]
        { bearer := none, sessionId := some "S1", isBrowser := true }
        realmAdminGuard 0).1 = AuthResult.deny := by
  refine ⟨rfl, ?_, ?_⟩
  · exact (C3_forbidden_is_deny_not_redirect realmAdminGuard csToken none 0 "S1"
      "http://kc/auth" [("S1", { accessToken := csToken, refreshToken := none })]
      (fun _ => none) true rfl rfl rfl).1
  · exact (C3_forbidden_is_deny_not_redirect realmAdminGuard csToken none 0 "S1"
      "http://kc/auth" [("S1", { accessToken := csToken, refreshToken := none })]
      (fun _ => none) true rfl rfl rfl).2.1

/-- C6: with a stored session whose access token is expired and which holds
a refresh token, the gate refreshes transparently: on refresh success the
stored record is replaced wholesale by the new token set and the predicate
is evaluated on the new token's claims; on refresh failure the request is
treated as unauthenticated, never as Forbidden. -/
theorem C6_transparent_refresh (refresh : Token → Option TokenSet) (authUrl sid : String)
    (store : KV TokenSet) (pred : Token → Bool) (now : Nat) (ts : TokenSet)
    (rt : Token) (b : Bool)
    (hstore : KV.get store sid = some ts)
    (hexp : verify ts.accessToken now = Except.error VerifyError.expired)
    (hrt : ts.refreshToken = some rt) :
    (∀ ts2 : TokenSet, refresh rt = some ts2 →
      authorize refresh authUrl store
          { bearer := none, sessionId := some sid, isBrowser := b } pred now
        = (if pred ts2.accessToken then AuthResult.allow ts2.accessToken.content
           else AuthResult.deny,
           KV.set store sid ts2)
      ∧ KV.get (KV.set store sid ts2) sid = some ts2)
    ∧ (refresh rt = none →
      (authorize refresh authUrl store
          { bearer := none, sessionId := some sid, isBrowser := b } pred now).1
        = unauthenticatedResult
            { bearer := none, sessionId := some sid, isBrowser := b } authUrl
      ∧ (authorize refresh authUrl store
          { bearer := none, sessionId := some sid, isBrowser := b } pred now).1
        ≠ AuthResult.deny) := by
  constructor
  · intro ts2 h2
    constructor
    · simp only [authorize, hstore, hexp, hrt, h2]
    · exact KV.get_set_self store sid ts2
  · intro h2
    have hres : (authorize refresh authUrl store
        { bearer := none, sessionId := some sid, isBrowser := b } pred now).1
        = unauthenticatedResult
            { bearer := none, sessionId := some sid, isBrowser := b } authUrl := by
      simp only [authorize, hstore, hexp, hrt, h2]
    refine ⟨hres, ?_⟩
    rw [hres]
    by_cases hb : b <;> simp [unauthenticatedResult, hb]

/-- C6 witness: an expired admin access token with a live refresh token is
refreshed and allowed through the realm-admin guard, with the record
replaced. -/
theorem C6_witness :
    authorize
        (fun _ => some { accessToken := adminToken, refreshToken := none })
        "http://kc/auth"
        [("S1", { accessToken := { content := adminClaims, exp := 0, sigOk := true, issOk := true },
                  refreshToken := some { content := adminClaims, exp := 1000, sigOk := true, issOk := true } })]
        { bearer := none, sessionId := some "S1", isBrowser := true }
        realmAdminGuard 50
      = (AuthResult.allow adminClaims,
         KV.set [("S1", { accessToken := { content := adminClaims, exp := 0, sigOk := true, issOk := true },
                          refreshToken := some { content := adminClaims, exp := 1000, sigOk := true, issOk := true } })]
           "S1" { accessToken := adminToken, refreshToken := none }) := by
  exact ((C6_transparent_refresh
      (fun _ => some { accessToken := adminToken, refreshToken := none })
      "http://kc/auth" "S1"
      [("S1", { accessToken := { content := adminClaims, exp := 0, sigOk := true, issOk := true },
                refreshToken := some { content := adminClaims, exp := 1000, sigOk := true, issOk := true } })]
      realmAdminGuard 50
      { accessToken := { content := adminClaims, exp := 0, sigOk := true, issOk := true },
        refreshToken := some { content := adminClaims, exp := 1000, sigOk := true, issOk := true } }
      { content := adminClaims, exp := 1000, sigOk := true, issOk := true } true
      rfl rfl rfl).1
      { accessToken := adminToken, refreshToken := none } rfl).1

/-- C7: a callback presenting the state embedded by the authorization
redirect is accepted (given a successful code exchange), a callback with a
mismatched state is rejected for every exchange outcome and every code, and
the pending state is discarded after the single validation, never
persisted. -/
theorem C7_state_round_trip (authEndpoint clientId redirectUri st tgt st2 code : String)
    (exchange : String → Option TokenSet) :
    (∀ ts : TokenSet, exchange code = some ts →
      handleCallback exchange (beginAuthFlow authEndpoint clientId redirectUri st tgt).2 st code
        = (CallbackDecision.accepted ts tgt, none))
    ∧ (st2 ≠ st →
      ∀ (exchange2 : String → Option TokenSet) (code2 : String),
        (handleCallback exchange2 (beginAuthFlow authEndpoint clientId redirectUri st tgt).2
            st2 code2).1
          = CallbackDecision.rejected)
    ∧ (∀ cbState cbCode : String,
        (handleCallback exchange (beginAuthFlow authEndpoint clientId redirectUri st tgt).2
            cbState cbCode).2 = none) := by
  refine ⟨?_, ?_, ?_⟩
  · intro ts h
    simp [handleCallback, beginAuthFlow, h]
  · intro hne exchange2 code2
    simp [handleCallback, beginAuthFlow, hne]
  · intro cbState cbCode
    by_cases hst : cbState = st
    · cases hx : exchange cbCode <;>
        simp [handleCallback, beginAuthFlow, hst, hx]
    · simp [handleCallback, beginAuthFlow, hst]

/-- C7 witness: a concrete flow whose callback with the matching state is
accepted and whose callback with a different state is rejected. -/
theorem C7_witness :
    handleCallback (fun _ => some { accessToken := adminToken, refreshToken := none })
        (beginAuthFlow "http://kc/auth" "admin-portal" "http://a/dashboard" "ST1" "/dashboard").2
        "ST1" "CODE1"
      = (CallbackDecision.accepted { accessToken := adminToken, refreshToken := none } "/dashboard",
         none)
    ∧ (handleCallback (fun _ => some { accessToken := adminToken, refreshToken := none })
        (beginAuthFlow "http://kc/auth" "admin-portal" "http://a/dashboard" "ST1" "/dashboard").2
        "ST2" "CODE1").1
      = CallbackDecision.rejected := by
  refine ⟨?_, ?_⟩
  · exact (C7_state_round_trip "http://kc/auth" "admin-portal" "http://a/dashboard"
      "ST1" "/dashboard" "ST2" "CODE1"
      (fun _ => some { accessToken := adminToken, refreshToken := none })).1
      { accessToken := adminToken, refreshToken := none } rfl
  · exact (C7_state_round_trip "http://kc/auth" "admin-portal" "http://a/dashboard"
      "ST1" "/dashboard" "ST2" "CODE1"
      (fun _ => some { accessToken := adminToken, refreshToken := none })).2.1
      (by decide) (fun _ => some { accessToken := adminToken, refreshToken := none }) "CODE1"

/-- C5 witness: deleting through the cs-portal namespace leaves a concrete
admin-portal record with the identical raw identifier readable. -/
theorem C5_witness :
    adminKey "X" ≠ csKey "X"
    ∧ KV.get (KV.del [(adminKey "X", (0 : Nat))] (csKey "X")) (adminKey "X")
      = KV.get [(adminKey "X", (0 : Nat))] (adminKey "X") := by
  exact ⟨(C5_session_namespace_isolation "X" [(adminKey "X", (0 : Nat))]).1 "X",
         (C5_session_namespace_isolation "X" [(adminKey "X", (0 : Nat))]).2.1⟩
